import Mathlib

/-!
Verification of the dual-format OpenAPI 3.0 decode routines of this
repository, embedded shallowly from the two Rust source files:

* src/bk/debug_parse_method.rs   -- parse_openapi_content_debug
* src/bk/improved_parse_method.rs -- parse_openapi_content

The two underlying codecs, serde_json::from_str and serde_yaml::from_str
instantiated at the external OpenApi30Spec object model, are external
library collaborators; they are modelled as abstract functions from the
input text to either a parsed spec or a diagnostic string (standing for
the Debug formatting of the codec error value).  The decode control flow,
the sniffing heuristic, the diagnostic print trace, and the possibility
that the debug variant aborts in its preview slice are all transcribed
from the Rust source.

A Rust panic is modelled as the value none: the debug variant returns
Option (Except ServiceError Spec), where none means the call aborted
before producing a Result.  The list-of-strings component of each result
is the sequence of console lines the function prints (println for the
debug variant, eprintln for the improved variant), in order.
-/

/-- The format guess of the content sniffer: Json or Yaml
(spec section 3, FormatGuess). -/
inductive FormatGuess where
  | Json
  | Yaml
deriving DecidableEq

/-- The service-layer error type.  The decode functions only ever build the
ParseError variant; Other stands for all remaining variants of the service
error enum (declared outside src/), which these functions never produce. -/
inductive ServiceError where
  | ParseError (msg : String)
  | Other (msg : String)
deriving DecidableEq

/-- The two structural codecs, abstract external collaborators:
jsonParse models serde_json::from_str::<OpenApi30Spec> and yamlParse models
serde_yaml::from_str::<OpenApi30Spec>.  A codec either returns a parsed
spec or a diagnostic string (the Debug text of its error value). -/
structure Codecs (Spec : Type) where
  jsonParse : String → Except String Spec
  yamlParse : String → Except String Spec

/-- Number of bytes of the UTF-8 encoding of one character
(as counted by Rust str::len). -/
def charUtf8Size (ch : Char) : Nat :=
  if ch.toNat ≤ 0x7F then 1
  else if ch.toNat ≤ 0x7FF then 2
  else if ch.toNat ≤ 0xFFFF then 3
  else 4

/-- Byte length of the UTF-8 encoding of a string (Rust str::len). -/
def utf8ByteLen (s : String) : Nat :=
  s.toList.foldl (fun n ch => n + charUtf8Size ch) 0

/-- The byte offsets of the string that are character boundaries in its
UTF-8 encoding: 0, every prefix sum of character sizes, and the total. -/
def utf8Boundaries (s : String) : List Nat :=
  s.toList.scanl (fun n ch => n + charUtf8Size ch) 0

/-- Whether byte offset i is a character boundary of s
(Rust str::is_char_boundary, for offsets at most the length). -/
def isCharBoundary (s : String) (i : Nat) : Bool :=
  (utf8Boundaries s).contains i

/-- The debug variant slices content[..content.len().min(100)] while
building its first println argument.  Rust panics on such a slice exactly
when the end index is not a character boundary; this happens when the
content is longer than 100 bytes and byte 100 falls inside a character. -/
def previewAborts (content : String) : Bool :=
  ! isCharBoundary content (Nat.min (utf8ByteLen content) 100)

/-- The characters of the first k UTF-8 bytes of a character list
(meaningful when k is a character boundary); used for the preview text. -/
def takeUtf8Bytes (l : List Char) (k : Nat) : List Char :=
  match l with
  | [] => []
  | ch :: rest => if charUtf8Size ch ≤ k then ch :: takeUtf8Bytes rest (k - charUtf8Size ch) else []

/-- Rust str::trim: drop whitespace from both ends.  Char.isWhitespace
agrees with Rust char::is_whitespace on ASCII input. -/
def rustTrim (s : String) : String :=
  String.mk (((s.toList.dropWhile Char.isWhitespace).reverse.dropWhile Char.isWhitespace).reverse)

/-- Rust str::starts_with with a char pattern: the first character equals ch. -/
def startsWithChar (s : String) (ch : Char) : Bool :=
  match s.toList with
  | [] => false
  | c :: _ => c = ch

/-- Rust str::contains with a char pattern: some character equals ch. -/
def containsChar (s : String) (ch : Char) : Bool :=
  s.toList.contains ch

/-- Rust Display formatting of a bool, used in the detection println. -/
def boolStr (b : Bool) : String :=
  if b then "true" else "false"

/-- debug_parse_method.rs line 9:
let is_likely_json = trimmed.starts_with(left brace) || trimmed.starts_with(left bracket). -/
def is_likely_json (content : String) : Bool :=
  startsWithChar (rustTrim content) '\x7b' || startsWithChar (rustTrim content) '['

/-- debug_parse_method.rs line 10:
let is_likely_yaml = !is_likely_json && (trimmed.contains(colon) || trimmed.contains(hyphen)).
Computed and printed by the debug variant, but never used to choose the
attempt order. -/
def is_likely_yaml (content : String) : Bool :=
  !(is_likely_json content) && (containsChar (rustTrim content) ':' || containsChar (rustTrim content) '-')

/-- The format guess that orders the decode attempts: the debug variant
branches only on is_likely_json (line 15), so the guess is Json when the
trimmed content starts with a JSON structural marker and Yaml otherwise. -/
def formatGuess (content : String) : FormatGuess :=
  if is_likely_json content then FormatGuess.Json else FormatGuess.Yaml

/-- Transcribed from the natural-language sniffer algorithm of the
specification (section 4.1): trim; if the first non-whitespace character
is a left brace or bracket, guess Json; otherwise, if the trimmed text
contains a colon or a hyphen, guess Yaml; otherwise default to Yaml.
Kept separate from formatGuess so the code-derived guess can be compared
against the spec wording. -/
def guessSpec (content : String) : FormatGuess :=
  if startsWithChar (rustTrim content) '\x7b' || startsWithChar (rustTrim content) '[' then
    FormatGuess.Json
  else if containsChar (rustTrim content) ':' || containsChar (rustTrim content) '-' then
    FormatGuess.Yaml
  else
    FormatGuess.Yaml

/-- The three println lines the debug variant emits before parsing
(debug_parse_method.rs lines 4, 5 and 12), once the preview slice
has been built without aborting. -/
def debugHeader (content : String) : List String :=
  ["Content preview: " ++ String.mk (takeUtf8Bytes content.toList (Nat.min (utf8ByteLen content) 100)),
   "Content length: " ++ toString (utf8ByteLen content),
   "Content type detection: JSON=" ++ boolStr (is_likely_json content) ++ ", YAML=" ++ boolStr (is_likely_yaml content)]

/-- src/bk/debug_parse_method.rs, parse_openapi_content_debug.
First component: none when the preview slice aborts (non-boundary byte
index), otherwise the returned Result.  Second component: the println
trace in order. -/
def parse_openapi_content_debug {Spec : Type} (c : Codecs Spec) (content : String) :
    Option (Except ServiceError Spec) × List String :=
  if previewAborts content then
    (none, [])
  else if is_likely_json content then
    match c.jsonParse content with
    | Except.ok spec =>
        (some (Except.ok spec),
         debugHeader content ++ ["Attempting JSON parse first...", "JSON parse successful!"])
    | Except.error json_err =>
        match c.yamlParse content with
        | Except.ok spec =>
            (some (Except.ok spec),
             debugHeader content ++
               ["Attempting JSON parse first...", "JSON parse failed: " ++ json_err,
                "Attempting YAML parse as fallback...", "YAML parse successful!"])
        | Except.error yaml_err =>
            (some (Except.error (ServiceError.ParseError
               ("JSON parse failed: " ++ json_err ++ ", YAML parse failed: " ++ yaml_err))),
             debugHeader content ++
               ["Attempting JSON parse first...", "JSON parse failed: " ++ json_err,
                "Attempting YAML parse as fallback...", "YAML parse also failed: " ++ yaml_err])
  else
    match c.yamlParse content with
    | Except.ok spec =>
        (some (Except.ok spec),
         debugHeader content ++ ["Attempting YAML parse first...", "YAML parse successful!"])
    | Except.error yaml_err =>
        match c.jsonParse content with
        | Except.ok spec =>
            (some (Except.ok spec),
             debugHeader content ++
               ["Attempting YAML parse first...", "YAML parse failed: " ++ yaml_err,
                "Attempting JSON parse as fallback...", "JSON parse successful!"])
        | Except.error json_err =>
            (some (Except.error (ServiceError.ParseError
               ("YAML parse failed: " ++ yaml_err ++ ", JSON parse failed: " ++ json_err))),
             debugHeader content ++
               ["Attempting YAML parse first...", "YAML parse failed: " ++ yaml_err,
                "Attempting JSON parse as fallback...", "JSON parse also failed: " ++ json_err])

/-- src/bk/improved_parse_method.rs, parse_openapi_content.
Always JSON first, YAML as fallback, no sniffing; the second component is
the eprintln trace in order. -/
def parse_openapi_content {Spec : Type} (c : Codecs Spec) (content : String) :
    Except ServiceError Spec × List String :=
  match c.jsonParse content with
  | Except.ok spec => (Except.ok spec, [])
  | Except.error json_err =>
      match c.yamlParse content with
      | Except.ok spec => (Except.ok spec, ["JSON parse error: " ++ json_err])
      | Except.error yaml_err =>
          (Except.error (ServiceError.ParseError
             ("Failed to parse content as JSON or YAML. JSON error: " ++ json_err ++ ", YAML error: " ++ yaml_err)),
           ["JSON parse error: " ++ json_err, "YAML parse error: " ++ yaml_err])

/-- The print-free decode core of the debug variant: the same control flow
as parse_openapi_content_debug with every println (and hence the preview
slice) removed. -/
def decode_debug_result {Spec : Type} (c : Codecs Spec) (content : String) :
    Except ServiceError Spec :=
  if is_likely_json content then
    match c.jsonParse content with
    | Except.ok spec => Except.ok spec
    | Except.error json_err =>
        match c.yamlParse content with
        | Except.ok spec => Except.ok spec
        | Except.error yaml_err =>
            Except.error (ServiceError.ParseError
              ("JSON parse failed: " ++ json_err ++ ", YAML parse failed: " ++ yaml_err))
  else
    match c.yamlParse content with
    | Except.ok spec => Except.ok spec
    | Except.error yaml_err =>
        match c.jsonParse content with
        | Except.ok spec => Except.ok spec
        | Except.error json_err =>
            Except.error (ServiceError.ParseError
              ("YAML parse failed: " ++ yaml_err ++ ", JSON parse failed: " ++ json_err))

/-- The print-free decode core of the improved variant. -/
def decode_result {Spec : Type} (c : Codecs Spec) (content : String) :
    Except ServiceError Spec :=
  match c.jsonParse content with
  | Except.ok spec => Except.ok spec
  | Except.error json_err =>
      match c.yamlParse content with
      | Except.ok spec => Except.ok spec
      | Except.error yaml_err =>
          Except.error (ServiceError.ParseError
            ("Failed to parse content as JSON or YAML. JSON error: " ++ json_err ++ ", YAML error: " ++ yaml_err))

/-- Concrete codec pair on which both codecs always fail. -/
def cFailFail : Codecs Nat :=
  ⟨fun _ => Except.error "ejson", fun _ => Except.error "eyaml"⟩

/-- Concrete codec pair on which JSON always succeeds and YAML always fails. -/
def cJsonOk : Codecs Nat :=
  ⟨fun _ => Except.ok 0, fun _ => Except.error "eyaml"⟩

/-- Concrete codec pair on which JSON succeeds with 0 and YAML with 9. -/
def cJsonOkYamlOk : Codecs Nat :=
  ⟨fun _ => Except.ok 0, fun _ => Except.ok 9⟩

/-- 99 ASCII characters followed by a 2-byte character: 101 UTF-8 bytes,
and byte 100 falls strictly inside the final character, so the debug
preview slice content[..100] aborts. -/
def abortA : String := String.mk (List.replicate 99 'a' ++ ['é'])

/-- As abortA with a different ASCII filler (input for a distinct claim). -/
def abortB : String := String.mk (List.replicate 99 'b' ++ ['é'])

/-- A left brace, 98 ASCII characters, then a 2-byte character: sniffed as
JSON, 101 UTF-8 bytes, byte 100 inside the final character. -/
def abortC : String := String.mk ('\x7b' :: (List.replicate 98 'c' ++ ['é']))

/-- As abortA with a different ASCII filler (input for a distinct claim). -/
def abortD : String := String.mk (List.replicate 99 'd' ++ ['é'])

/-- A left bracket, 98 ASCII characters, then a 2-byte character: sniffed
as JSON, byte 100 inside the final character. -/
def abortE : String := String.mk ('[' :: (List.replicate 98 'e' ++ ['é']))

/-- As abortA with a different ASCII filler (input for a distinct claim). -/
def abortF : String := String.mk (List.replicate 99 'f' ++ ['é'])

/-- A boolean that is not true is false. -/
theorem bool_eq_false {b : Bool} (h : ¬ b = true) : b = false := by
  cases b
  · rfl
  · exact absurd rfl h

/-- A boolean that is false is not true. -/
theorem bool_not_true {b : Bool} (h : b = false) : ¬ b = true :=
  fun h2 => Bool.noConfusion (h ▸ h2)

/-- When the preview slice aborts, the debug variant returns no Result and
prints nothing. -/
theorem debug_abort {Spec : Type} (c : Codecs Spec) (content : String)
    (h : previewAborts content = true) :
    parse_openapi_content_debug c content = (none, []) := by
  unfold parse_openapi_content_debug
  rw [h]
  rfl

/-- Debug variant, JSON guessed, JSON attempt succeeds. -/
theorem debug_json_first_ok {Spec : Type} (c : Codecs Spec) (content : String) (s : Spec)
    (h : previewAborts content = false) (hj : is_likely_json content = true)
    (hk : c.jsonParse content = Except.ok s) :
    parse_openapi_content_debug c content =
      (some (Except.ok s),
       debugHeader content ++ ["Attempting JSON parse first...", "JSON parse successful!"]) := by
  unfold parse_openapi_content_debug
  rw [h, if_pos hj, hk]
  rfl

/-- Debug variant, JSON guessed, JSON fails, YAML fallback succeeds. -/
theorem debug_json_first_fb_ok {Spec : Type} (c : Codecs Spec) (content : String)
    (j : String) (s : Spec)
    (h : previewAborts content = false) (hj : is_likely_json content = true)
    (hk : c.jsonParse content = Except.error j) (hy : c.yamlParse content = Except.ok s) :
    parse_openapi_content_debug c content =
      (some (Except.ok s),
       debugHeader content ++
         ["Attempting JSON parse first...", "JSON parse failed: " ++ j,
          "Attempting YAML parse as fallback...", "YAML parse successful!"]) := by
  unfold parse_openapi_content_debug
  rw [h, if_pos hj, hk, hy]
  rfl

/-- Debug variant, JSON guessed, both attempts fail. -/
theorem debug_json_first_agg {Spec : Type} (c : Codecs Spec) (content : String)
    (j y : String)
    (h : previewAborts content = false) (hj : is_likely_json content = true)
    (hk : c.jsonParse content = Except.error j) (hy : c.yamlParse content = Except.error y) :
    parse_openapi_content_debug c content =
      (some (Except.error (ServiceError.ParseError
         ("JSON parse failed: " ++ j ++ ", YAML parse failed: " ++ y))),
       debugHeader content ++
         ["Attempting JSON parse first...", "JSON parse failed: " ++ j,
          "Attempting YAML parse as fallback...", "YAML parse also failed: " ++ y]) := by
  unfold parse_openapi_content_debug
  rw [h, if_pos hj, hk, hy]
  rfl

/-- Debug variant, YAML guessed, YAML attempt succeeds. -/
theorem debug_yaml_first_ok {Spec : Type} (c : Codecs Spec) (content : String) (s : Spec)
    (h : previewAborts content = false) (hj : is_likely_json content = false)
    (hy : c.yamlParse content = Except.ok s) :
    parse_openapi_content_debug c content =
      (some (Except.ok s),
       debugHeader content ++ ["Attempting YAML parse first...", "YAML parse successful!"]) := by
  unfold parse_openapi_content_debug
  rw [h, if_neg (bool_not_true hj), hy]
  rfl

/-- Debug variant, YAML guessed, YAML fails, JSON fallback succeeds. -/
theorem debug_yaml_first_fb_ok {Spec : Type} (c : Codecs Spec) (content : String)
    (y : String) (s : Spec)
    (h : previewAborts content = false) (hj : is_likely_json content = false)
    (hy : c.yamlParse content = Except.error y) (hk : c.jsonParse content = Except.ok s) :
    parse_openapi_content_debug c content =
      (some (Except.ok s),
       debugHeader content ++
         ["Attempting YAML parse first...", "YAML parse failed: " ++ y,
          "Attempting JSON parse as fallback...", "JSON parse successful!"]) := by
  unfold parse_openapi_content_debug
  rw [h, if_neg (bool_not_true hj), hy, hk]
  rfl

/-- Debug variant, YAML guessed, both attempts fail. -/
theorem debug_yaml_first_agg {Spec : Type} (c : Codecs Spec) (content : String)
    (y j : String)
    (h : previewAborts content = false) (hj : is_likely_json content = false)
    (hy : c.yamlParse content = Except.error y) (hk : c.jsonParse content = Except.error j) :
    parse_openapi_content_debug c content =
      (some (Except.error (ServiceError.ParseError
         ("YAML parse failed: " ++ y ++ ", JSON parse failed: " ++ j))),
       debugHeader content ++
         ["Attempting YAML parse first...", "YAML parse failed: " ++ y,
          "Attempting JSON parse as fallback...", "JSON parse also failed: " ++ j]) := by
  unfold parse_openapi_content_debug
  rw [h, if_neg (bool_not_true hj), hy, hk]
  rfl

/-- Improved variant, JSON attempt succeeds: no fallback, no output. -/
theorem improved_ok {Spec : Type} (c : Codecs Spec) (content : String) (s : Spec)
    (hk : c.jsonParse content = Except.ok s) :
    parse_openapi_content c content = (Except.ok s, []) := by
  unfold parse_openapi_content
  rw [hk]

/-- Improved variant, JSON fails, YAML fallback succeeds. -/
theorem improved_fb_ok {Spec : Type} (c : Codecs Spec) (content : String)
    (j : String) (s : Spec)
    (hk : c.jsonParse content = Except.error j) (hy : c.yamlParse content = Except.ok s) :
    parse_openapi_content c content = (Except.ok s, ["JSON parse error: " ++ j]) := by
  unfold parse_openapi_content
  rw [hk, hy]

/-- Improved variant, both attempts fail. -/
theorem improved_agg {Spec : Type} (c : Codecs Spec) (content : String)
    (j y : String)
    (hk : c.jsonParse content = Except.error j) (hy : c.yamlParse content = Except.error y) :
    parse_openapi_content c content =
      (Except.error (ServiceError.ParseError
         ("Failed to parse content as JSON or YAML. JSON error: " ++ j ++ ", YAML error: " ++ y)),
       ["JSON parse error: " ++ j, "YAML parse error: " ++ y]) := by
  unfold parse_openapi_content
  rw [hk, hy]

/-- On non-aborting input, the result component of the debug variant is the
print-free core result. -/
theorem debug_fst_eq {Spec : Type} (c : Codecs Spec) (content : String)
    (h : previewAborts content = false) :
    (parse_openapi_content_debug c content).1 = some (decode_debug_result c content) := by
  unfold parse_openapi_content_debug decode_debug_result
  rw [h]
  cases hj : is_likely_json content
  · cases hy : c.yamlParse content
    · cases hk : c.jsonParse content <;> rfl
    · rfl
  · cases hk : c.jsonParse content
    · cases hy : c.yamlParse content <;> rfl
    · rfl

/-- The result component of the improved variant is the print-free core
result. -/
theorem improved_fst_eq {Spec : Type} (c : Codecs Spec) (content : String) :
    (parse_openapi_content c content).1 = decode_result c content := by
  unfold parse_openapi_content decode_result
  cases hk : c.jsonParse content
  · cases hy : c.yamlParse content <;> rfl
  · rfl

/-- Whenever the debug variant returns an error, both codecs failed and the
error is the ordered aggregated ParseError. -/
theorem debug_error_characterization {Spec : Type} (c : Codecs Spec) (content : String)
    (e : ServiceError)
    (he : (parse_openapi_content_debug c content).1 = some (Except.error e)) :
    ∃ j y, c.jsonParse content = Except.error j ∧ c.yamlParse content = Except.error y ∧
      e = ServiceError.ParseError
        (if is_likely_json content then
           "JSON parse failed: " ++ j ++ ", YAML parse failed: " ++ y
         else
           "YAML parse failed: " ++ y ++ ", JSON parse failed: " ++ j) := by
  by_cases hab : previewAborts content = true
  · rw [debug_abort c content hab] at he
    simp at he
  · have hab' : previewAborts content = false := bool_eq_false hab
    cases hj : is_likely_json content
    · cases hy : c.yamlParse content with
      | error y =>
          cases hk : c.jsonParse content with
          | error j =>
              rw [debug_yaml_first_agg c content y j hab' hj hy hk] at he
              simp at he
              exact ⟨j, y, rfl, rfl, he.symm⟩
          | ok s =>
              rw [debug_yaml_first_fb_ok c content y s hab' hj hy hk] at he
              simp at he
      | ok s =>
          rw [debug_yaml_first_ok c content s hab' hj hy] at he
          simp at he
    · cases hk : c.jsonParse content with
      | error j =>
          cases hy : c.yamlParse content with
          | error y =>
              rw [debug_json_first_agg c content j y hab' hj hk hy] at he
              simp at he
              exact ⟨j, y, rfl, rfl, he.symm⟩
          | ok s =>
              rw [debug_json_first_fb_ok c content j s hab' hj hk hy] at he
              simp at he
      | ok s =>
          rw [debug_json_first_ok c content s hab' hj hk] at he
          simp at he

/-- Whenever the improved variant returns an error, both codecs failed and
the error is the aggregated ParseError listing the JSON diagnostic first. -/
theorem improved_error_characterization {Spec : Type} (c : Codecs Spec) (content : String)
    (e : ServiceError)
    (he : (parse_openapi_content c content).1 = Except.error e) :
    ∃ j y, c.jsonParse content = Except.error j ∧ c.yamlParse content = Except.error y ∧
      e = ServiceError.ParseError
        ("Failed to parse content as JSON or YAML. JSON error: " ++ j ++ ", YAML error: " ++ y) := by
  cases hk : c.jsonParse content with
  | error j =>
      cases hy : c.yamlParse content with
      | error y =>
          rw [improved_agg c content j y hk hy] at he
          simp at he
          exact ⟨j, y, rfl, rfl, he.symm⟩
      | ok s =>
          rw [improved_fb_ok c content j s hk hy] at he
          simp at he
  | ok s =>
      rw [improved_ok c content s hk] at he
      simp at he

/-- C1 (amended): on every input whose preview slice index falls on a
character boundary (in particular every input of at most 100 UTF-8 bytes),
the debug variant returns exactly one of Ok or Err, and any error either
variant returns is the single aggregated ParseError; the improved variant
satisfies this for every input.  (As stated over all inputs the claim
fails: the debug variant aborts on non-boundary inputs, see the
counterexample.) -/
theorem C1_exactly_one {Spec : Type} (c : Codecs Spec) (content : String)
    (h : previewAborts content = false) :
    (∃ r, (parse_openapi_content_debug c content).1 = some r) ∧
    (∀ e, (parse_openapi_content_debug c content).1 = some (Except.error e) →
      ∃ msg, e = ServiceError.ParseError msg) ∧
    (∀ e, (parse_openapi_content c content).1 = Except.error e →
      ∃ msg, e = ServiceError.ParseError msg) := by
  refine ⟨⟨decode_debug_result c content, debug_fst_eq c content h⟩, ?_, ?_⟩
  · intro e he
    obtain ⟨j, y, _, _, hE⟩ := debug_error_characterization c content e he
    exact ⟨_, hE⟩
  · intro e he
    obtain ⟨j, y, _, _, hE⟩ := improved_error_characterization c content e he
    exact ⟨_, hE⟩

/-- C1 witness: at a concrete non-aborting input the debug variant does
return a Result. -/
theorem C1_exactly_one_witness :
    ((parse_openapi_content_debug cFailFail "x").1).isSome = true := by
  obtain ⟨r, hr⟩ := (C1_exactly_one cFailFail "x" (by rfl)).1
  rw [hr]
  rfl

/-- C1 counterexample: on a 101-byte input whose byte 100 is inside a
character, the debug variant returns neither Ok nor Err (it aborts). -/
theorem C1_counterexample :
    (parse_openapi_content_debug cFailFail abortB).1 = none := by rfl

/-- C2 (amended): whenever the JSON codec parses the content, the improved
variant succeeds with that spec, and the debug variant succeeds on either
guess path (in particular via the JSON fallback of the YAML-first path),
provided its preview slice does not abort. -/
theorem C2_valid_json_succeeds {Spec : Type} (c : Codecs Spec) (content : String) (s : Spec)
    (hjson : c.jsonParse content = Except.ok s)
    (h : previewAborts content = false) :
    (parse_openapi_content c content).1 = Except.ok s ∧
    ∃ t, (parse_openapi_content_debug c content).1 = some (Except.ok t) := by
  constructor
  · rw [improved_ok c content s hjson]
  · cases hj : is_likely_json content
    · cases hy : c.yamlParse content with
      | error y => exact ⟨s, by rw [debug_yaml_first_fb_ok c content y s h hj hy hjson]⟩
      | ok t => exact ⟨t, by rw [debug_yaml_first_ok c content t h hj hy]⟩
    · exact ⟨s, by rw [debug_json_first_ok c content s h hj hjson]⟩

/-- C2 witness: a YAML-guessed input on which the YAML attempt fails and
the JSON attempt succeeds; both variants succeed. -/
theorem C2_valid_json_succeeds_witness :
    (parse_openapi_content cJsonOk "a: -b").1 = Except.ok 0 ∧
    ((parse_openapi_content_debug cJsonOk "a: -b").1).isSome = true := by
  obtain ⟨h1, t, ht⟩ := C2_valid_json_succeeds cJsonOk "a: -b" 0 rfl rfl
  exact ⟨h1, by rw [ht]; rfl⟩

/-- C2 counterexample: a JSON-parsable input (brace-led) on which the
debug variant aborts in its preview slice instead of succeeding. -/
theorem C2_counterexample :
    cJsonOk.jsonParse abortC = Except.ok 0 ∧
    (parse_openapi_content_debug cJsonOk abortC).1 = none :=
  ⟨rfl, rfl⟩

/-- C3: any error either variant returns implies both codecs failed (an
incorrect guess alone never causes rejection), and on the empty input both
codecs are attempted before the aggregated error is returned. -/
theorem C3_fail_only_if_both_fail {Spec : Type} (c : Codecs Spec) :
    (∀ content e, (parse_openapi_content_debug c content).1 = some (Except.error e) →
        (∃ j, c.jsonParse content = Except.error j) ∧ ∃ y, c.yamlParse content = Except.error y) ∧
    (∀ content e, (parse_openapi_content c content).1 = Except.error e →
        (∃ j, c.jsonParse content = Except.error j) ∧ ∃ y, c.yamlParse content = Except.error y) ∧
    (∀ j y, c.jsonParse "" = Except.error j → c.yamlParse "" = Except.error y →
        (parse_openapi_content_debug c "").1 =
          some (Except.error (ServiceError.ParseError
            ("YAML parse failed: " ++ y ++ ", JSON parse failed: " ++ j))) ∧
        (parse_openapi_content c "").1 =
          Except.error (ServiceError.ParseError
            ("Failed to parse content as JSON or YAML. JSON error: " ++ j ++ ", YAML error: " ++ y))) := by
  refine ⟨?_, ?_, ?_⟩
  · intro content e he
    obtain ⟨j, y, hk, hy, _⟩ := debug_error_characterization c content e he
    exact ⟨⟨j, hk⟩, ⟨y, hy⟩⟩
  · intro content e he
    obtain ⟨j, y, hk, hy, _⟩ := improved_error_characterization c content e he
    exact ⟨⟨j, hk⟩, ⟨y, hy⟩⟩
  · intro j y hk hy
    constructor
    · rw [debug_yaml_first_agg c "" y j rfl rfl hy hk]
    · rw [improved_agg c "" j y hk hy]

/-- C3 witness: on the empty input with both codecs failing, both variants
return the aggregated error naming both attempts. -/
theorem C3_fail_only_if_both_fail_witness :
    (parse_openapi_content_debug cFailFail "").1 =
      some (Except.error (ServiceError.ParseError
        "YAML parse failed: eyaml, JSON parse failed: ejson")) ∧
    (parse_openapi_content cFailFail "").1 =
      Except.error (ServiceError.ParseError
        "Failed to parse content as JSON or YAML. JSON error: ejson, YAML error: eyaml") :=
  (C3_fail_only_if_both_fail cFailFail).2.2 "ejson" "eyaml" rfl rfl

/-- C4 (amended): when both codecs fail, each variant returns one
aggregated ParseError whose message embeds both diagnostics behind
distinct codec labels in the order the codecs were attempted; for the
debug variant this holds provided its preview slice does not abort. -/
theorem C4_aggregated_error {Spec : Type} (c : Codecs Spec) (content : String) (j y : String)
    (hk : c.jsonParse content = Except.error j) (hy : c.yamlParse content = Except.error y)
    (h : previewAborts content = false) :
    (parse_openapi_content c content).1 =
      Except.error (ServiceError.ParseError
        ("Failed to parse content as JSON or YAML. JSON error: " ++ j ++ ", YAML error: " ++ y)) ∧
    (parse_openapi_content_debug c content).1 =
      some (Except.error (ServiceError.ParseError
        (if is_likely_json content then
           "JSON parse failed: " ++ j ++ ", YAML parse failed: " ++ y
         else
           "YAML parse failed: " ++ y ++ ", JSON parse failed: " ++ j))) := by
  constructor
  · rw [improved_agg c content j y hk hy]
  · cases hj : is_likely_json content
    · rw [debug_yaml_first_agg c content y j h hj hy hk]
      rfl
    · rw [debug_json_first_agg c content j y h hj hk hy]
      rfl

/-- C4 witness: a YAML-guessed input on which both codecs fail; the debug
message lists the YAML diagnostic first, the improved one the JSON
diagnostic first. -/
theorem C4_aggregated_error_witness :
    (parse_openapi_content cFailFail "ab").1 =
      Except.error (ServiceError.ParseError
        "Failed to parse content as JSON or YAML. JSON error: ejson, YAML error: eyaml") ∧
    (parse_openapi_content_debug cFailFail "ab").1 =
      some (Except.error (ServiceError.ParseError
        "YAML parse failed: eyaml, JSON parse failed: ejson")) :=
  C4_aggregated_error cFailFail "ab" "ejson" "eyaml" rfl rfl rfl

/-- C4 counterexample: both codecs fail on this input, yet the debug
variant returns no aggregated error at all (it aborts in the preview). -/
theorem C4_counterexample :
    cFailFail.jsonParse abortD = Except.error "ejson" ∧
    cFailFail.yamlParse abortD = Except.error "eyaml" ∧
    (parse_openapi_content_debug cFailFail abortD).1 = none :=
  ⟨rfl, rfl, rfl⟩

/-- C5: the guess used to order the attempts equals the guess described by
the specification wording: trim; a leading brace or bracket guesses Json;
every other content, with or without a colon or hyphen, guesses Yaml. -/
theorem C5_sniffer_guess (content : String) : formatGuess content = guessSpec content := by
  unfold formatGuess guessSpec is_likely_json
  cases hs : (startsWithChar (rustTrim content) '\x7b' || startsWithChar (rustTrim content) '[')
  · cases hc : (containsChar (rustTrim content) ':' || containsChar (rustTrim content) '-') <;> rfl
  · rfl

/-- C5 witness: concrete instances of the guess equality. -/
theorem C5_sniffer_guess_witness :
    formatGuess " \x7b \x7d " = guessSpec " \x7b \x7d " ∧ formatGuess "a: b" = guessSpec "a: b" :=
  ⟨C5_sniffer_guess " \x7b \x7d ", C5_sniffer_guess "a: b"⟩

/-- C6 (amended): when the first-attempted codec succeeds, each variant
returns exactly that codec's spec, and its entire observable behaviour
(result and print trace) is independent of the second codec; for the debug
variant this holds provided its preview slice does not abort. -/
theorem C6_first_success_short_circuits {Spec : Type} (c c2 : Codecs Spec)
    (content : String) (s : Spec)
    (h : previewAborts content = false) :
    (c.jsonParse content = Except.ok s →
      (parse_openapi_content c content).1 = Except.ok s ∧
      (c2.jsonParse content = Except.ok s →
        parse_openapi_content c content = parse_openapi_content c2 content)) ∧
    (is_likely_json content = true → c.jsonParse content = Except.ok s →
      (parse_openapi_content_debug c content).1 = some (Except.ok s) ∧
      (c2.jsonParse content = Except.ok s →
        parse_openapi_content_debug c content = parse_openapi_content_debug c2 content)) ∧
    (is_likely_json content = false → c.yamlParse content = Except.ok s →
      (parse_openapi_content_debug c content).1 = some (Except.ok s) ∧
      (c2.yamlParse content = Except.ok s →
        parse_openapi_content_debug c content = parse_openapi_content_debug c2 content)) := by
  refine ⟨?_, ?_, ?_⟩
  · intro hk
    refine ⟨by rw [improved_ok c content s hk], ?_⟩
    intro hk2
    rw [improved_ok c content s hk, improved_ok c2 content s hk2]
  · intro hj hk
    refine ⟨by rw [debug_json_first_ok c content s h hj hk], ?_⟩
    intro hk2
    rw [debug_json_first_ok c content s h hj hk, debug_json_first_ok c2 content s h hj hk2]
  · intro hj hy
    refine ⟨by rw [debug_yaml_first_ok c content s h hj hy], ?_⟩
    intro hy2
    rw [debug_yaml_first_ok c content s h hj hy, debug_yaml_first_ok c2 content s h hj hy2]

/-- C6 witness: a JSON-guessed input on which the JSON attempt succeeds;
the debug variant returns that spec and its behaviour is unchanged when
the YAML codec is replaced by a codec that would also succeed. -/
theorem C6_first_success_short_circuits_witness :
    (parse_openapi_content_debug cJsonOk "\x7bz").1 = some (Except.ok 0) ∧
    parse_openapi_content_debug cJsonOk "\x7bz" = parse_openapi_content_debug cJsonOkYamlOk "\x7bz" := by
  have h := (C6_first_success_short_circuits cJsonOk cJsonOkYamlOk "\x7bz" 0 rfl).2.1 rfl rfl
  exact ⟨h.1, h.2 rfl⟩

/-- C6 counterexample: a JSON-guessed input whose JSON attempt would
succeed, yet the debug variant returns nothing (it aborts first). -/
theorem C6_counterexample :
    is_likely_json abortE = true ∧
    cJsonOk.jsonParse abortE = Except.ok 0 ∧
    (parse_openapi_content_debug cJsonOk abortE).1 = none :=
  ⟨rfl, rfl, rfl⟩

/-- C7 (amended): assuming the two codecs agree whenever both succeed on
the same input (true of JSON and YAML codecs targeting one schema, since
YAML is a superset of JSON), and on every input where the debug preview
slice does not abort, the two variants succeed together with equal specs
and fail together. -/
theorem C7_variants_equivalent {Spec : Type} (c : Codecs Spec) (content : String)
    (hagree : ∀ s t, c.jsonParse content = Except.ok s → c.yamlParse content = Except.ok t → s = t)
    (h : previewAborts content = false) :
    (∀ s, (parse_openapi_content_debug c content).1 = some (Except.ok s) ↔
          (parse_openapi_content c content).1 = Except.ok s) ∧
    ((∃ e, (parse_openapi_content_debug c content).1 = some (Except.error e)) ↔
     (∃ e, (parse_openapi_content c content).1 = Except.error e)) := by
  cases hj : is_likely_json content
  · cases hy : c.yamlParse content with
    | error y =>
        cases hk : c.jsonParse content with
        | error j =>
            rw [debug_yaml_first_agg c content y j h hj hy hk, improved_agg c content j y hk hy]
            simp
        | ok u =>
            rw [debug_yaml_first_fb_ok c content y u h hj hy hk, improved_ok c content u hk]
            simp
    | ok t =>
        cases hk : c.jsonParse content with
        | error j =>
            rw [debug_yaml_first_ok c content t h hj hy, improved_fb_ok c content j t hk hy]
            simp
        | ok u =>
            have hut : u = t := hagree u t hk hy
            subst hut
            rw [debug_yaml_first_ok c content u h hj hy, improved_ok c content u hk]
            simp
  · cases hk : c.jsonParse content with
    | error j =>
        cases hy : c.yamlParse content with
        | error y =>
            rw [debug_json_first_agg c content j y h hj hk hy, improved_agg c content j y hk hy]
            simp
        | ok t =>
            rw [debug_json_first_fb_ok c content j t h hj hk hy, improved_fb_ok c content j t hk hy]
            simp
    | ok u =>
        rw [debug_json_first_ok c content u h hj hk, improved_ok c content u hk]
        simp

/-- C7 witness: on a concrete YAML-guessed input where YAML fails and JSON
succeeds, the equivalence transfers the improved result to the debug one. -/
theorem C7_variants_equivalent_witness :
    (parse_openapi_content_debug cJsonOk "z").1 = some (Except.ok 0) :=
  ((C7_variants_equivalent cJsonOk "z" (fun _ _ _ ht => Except.noConfusion ht) rfl).1 0).mpr rfl

/-- C7 counterexample: on this input the improved variant succeeds while
the debug variant returns nothing (it aborts), so the two variants neither
both succeed nor both fail. -/
theorem C7_counterexample :
    (parse_openapi_content cJsonOk abortF).1 = Except.ok 0 ∧
    (parse_openapi_content_debug cJsonOk abortF).1 = none :=
  ⟨rfl, rfl⟩

/-- C8 (amended): the diagnostics never influence the returned result:
each variant's result component equals its print-free decode core (and the
embedding is a pure function of the receiver-free inputs, so no caller
state is touched); both variants do, however, emit console output, see the
counterexample. -/
theorem C8_result_independent_of_output {Spec : Type} (c : Codecs Spec) (content : String)
    (h : previewAborts content = false) :
    (parse_openapi_content c content).1 = decode_result c content ∧
    (parse_openapi_content_debug c content).1 = some (decode_debug_result c content) :=
  ⟨improved_fst_eq c content, debug_fst_eq c content h⟩

/-- C8 witness: the result and core agree at a concrete input. -/
theorem C8_result_independent_of_output_witness :
    (parse_openapi_content cFailFail "x").1 = decode_result cFailFail "x" ∧
    (parse_openapi_content_debug cFailFail "x").1 = some (decode_debug_result cFailFail "x") :=
  C8_result_independent_of_output cFailFail "x" rfl

/-- C8 counterexample: the debug variant prints on every non-aborting
input, so decode does have observable console output. -/
theorem C8_counterexample :
    (parse_openapi_content_debug cFailFail "x").2 ≠ [] := by decide

/-- C9: sniffing and the improved variant are total, but the debug variant
is not: on 99 ASCII characters followed by one 2-byte character (101
UTF-8 bytes, byte 100 inside the final character) the preview slice
content[..min(len,100)] is not on a character boundary, so the call
aborts instead of returning a Result, while the guess and the improved
variant still produce values. -/
theorem C9_debug_aborts_on_non_boundary :
    previewAborts abortA = true ∧
    (parse_openapi_content_debug cFailFail abortA).1 = none ∧
    formatGuess abortA = FormatGuess.Yaml ∧
    (parse_openapi_content cFailFail abortA).1 =
      Except.error (ServiceError.ParseError
        "Failed to parse content as JSON or YAML. JSON error: ejson, YAML error: eyaml") :=
  ⟨rfl, rfl, rfl, rfl⟩

/-- C10: the improved variant sniffs nothing: JSON is always attempted
first, YAML only after a JSON failure, the aggregated message lists the
JSON diagnostic before the YAML one, and the entire behaviour depends only
on the codec outcomes, never on the shape of the content. -/
theorem C10_improved_json_first {Spec : Type} (c c2 : Codecs Spec) (content content2 : String) :
    (∀ s, c.jsonParse content = Except.ok s →
        parse_openapi_content c content = (Except.ok s, [])) ∧
    (∀ j s, c.jsonParse content = Except.error j → c.yamlParse content = Except.ok s →
        parse_openapi_content c content = (Except.ok s, ["JSON parse error: " ++ j])) ∧
    (∀ j y, c.jsonParse content = Except.error j → c.yamlParse content = Except.error y →
        parse_openapi_content c content =
          (Except.error (ServiceError.ParseError
             ("Failed to parse content as JSON or YAML. JSON error: " ++ j ++ ", YAML error: " ++ y)),
           ["JSON parse error: " ++ j, "YAML parse error: " ++ y])) ∧
    (c.jsonParse content = c2.jsonParse content2 → c.yamlParse content = c2.yamlParse content2 →
        parse_openapi_content c content = parse_openapi_content c2 content2) := by
  refine ⟨?_, ?_, ?_, ?_⟩
  · intro s hk
    exact improved_ok c content s hk
  · intro j s hk hy
    exact improved_fb_ok c content j s hk hy
  · intro j y hk hy
    exact improved_agg c content j y hk hy
  · intro hkeq hyeq
    unfold parse_openapi_content
    rw [hkeq, hyeq]

/-- C10 witness: a brace-led and a plain-text input with identical codec
outcomes produce identical improved-variant behaviour, and the failure
message lists the JSON diagnostic first. -/
theorem C10_improved_json_first_witness :
    parse_openapi_content cFailFail "plain text" = parse_openapi_content cFailFail "\x7bz" ∧
    (parse_openapi_content cFailFail "plain text").1 =
      Except.error (ServiceError.ParseError
        "Failed to parse content as JSON or YAML. JSON error: ejson, YAML error: eyaml") := by
  have h := C10_improved_json_first cFailFail cFailFail "plain text" "\x7bz"
  refine ⟨h.2.2.2 rfl rfl, ?_⟩
  rw [h.2.2.1 "ejson" "eyaml" rfl rfl]
  rfl
